import Mathlib

/-!
Verification of the nova-renderer shaderpack pipeline against its specification.

The development shallowly embeds the render orchestrator (nova_renderer.cpp),
the shader-program abstraction (gl_shader_program.h) and the collaborator
interfaces the orchestrator consumes.  GPU calls, logging and collaborator
calls are modelled as an explicit event trace; failure (a thrown C++
exception) is modelled with `Except`.
-/

namespace Nova

/-- Deep embedding of the glm matrix values the renderer computes.  glm is an
external library (out of scope per the spec), so a matrix is represented by the
sequence of glm calls that produced it rather than by numeric entries;
`cameraMat` stands for an externally supplied camera matrix. -/
inductive Mat4 where
  | identity : Mat4
  | translate3 : Mat4 → ℚ → ℚ → ℚ → Mat4
  | scale3 : Mat4 → ℚ → ℚ → ℚ → Mat4
  | cameraMat : Nat → Mat4
deriving DecidableEq

/-- The observable actions the renderer performs during a frame: log output,
collaborator calls, GL state changes and draw calls. -/
inductive GLEvent where
  | logMessage : String → GLEvent
  | recalculateFrustum : GLEvent
  | uploadNewGeometry : GLEvent
  | clearBuffers : Bool → Bool → GLEvent
  | sendPerFrameData : Mat4 → Mat4 → GLEvent
  | bindProgram : String → GLEvent
  | bindTexture : String → Nat → GLEvent
  | uploadMat4 : Int → Mat4 → GLEvent
  | setActive : Nat → GLEvent
  | draw : Nat → GLEvent
  | endFrame : GLEvent
deriving DecidableEq

/-- Modelled from the spec: the mesh store's renderable record (`render_object`),
whose defining header is not part of the snapshot.  Fields follow §6 of the
spec ("renderable: geometry handle, position, optional color/normal/data
texture names, bounding volume") and the uses in nova_renderer.cpp: the
geometry handle is a numeric id together with its has_data flag. -/
structure render_object where
  geometry_id : Nat
  geometry_has_data : Bool
  position : ℚ × ℚ × ℚ
  color_texture : String
  normalmap : Option String
  data_texture : Option String
deriving DecidableEq

/-- The `gl_shader_program` class from gl_shader_program.h: the GL program
handle (`gl_name`, 0 when null), the program name, the handles of the attached
shader stages, the lazily filled uniform-location cache, and the geometry
filter. -/
structure gl_shader_program where
  gl_name : Nat
  name : String
  added_shaders : List Nat
  uniform_locations : List (String × Int)
  filter : String
deriving DecidableEq

/-- The copy constructor of `gl_shader_program` is declared `= default`
(gl_shader_program.h line 80), so it performs a memberwise copy of every
field, the GPU handle `gl_name` and `added_shaders` included. -/
def gl_shader_program.copy_construct (other : gl_shader_program) :
    gl_shader_program :=
  other

/-- Modelled from the spec: the move constructor's body lives in
gl_shader_program.cpp, which is not in the snapshot.  "Move-construction
transfers GPU-resource ownership and invalidates the source object (its
handle becomes null so destruction is a no-op)."  Returns (the constructed
object, the moved-from source). -/
def gl_shader_program.move_construct (other : gl_shader_program) :
    gl_shader_program × gl_shader_program :=
  (other, { other with gl_name := 0, added_shaders := [] })

/-- Modelled from the spec: the destructor's body lives in the missing
gl_shader_program.cpp.  "Destruction releases the GPU program handle exactly
once; safe on a moved-from (nulled) instance."  Returns the list of GL handles
released. -/
def gl_shader_program.destruct (p : gl_shader_program) : List Nat :=
  (if p.gl_name = 0 then [] else [p.gl_name]) ++ p.added_shaders

/-- Modelled from the spec: the body of `get_uniform_location` is in the
missing gl_shader_program.cpp; its header doc (gl_shader_program.h lines
106-116) states that the first call for a given string calls
glGetUniformLocation and the result is cached so the native call happens only
once per uniform name.  The native lookup (glGetUniformLocation, which
returns -1 for an unknown name) is passed as a function; the result is the
location, the updated program, and the number of native lookups performed. -/
def gl_shader_program.get_uniform_location (native : String → Int)
    (p : gl_shader_program) (uniform_name : String) :
    Int × gl_shader_program × Nat :=
  match p.uniform_locations.lookup uniform_name with
  | some loc => (loc, p, 0)
  | none =>
      let loc := native uniform_name
      (loc, { p with uniform_locations := (uniform_name, loc) :: p.uniform_locations }, 1)

/-- Calling `get_uniform_location` n times in a row with the same name,
collecting the returned locations and the total number of native lookups. -/
def call_uniform_location_times (native : String → Int)
    (p : gl_shader_program) (uniform_name : String) :
    Nat → List Int × gl_shader_program × Nat
  | 0 => ([], p, 0)
  | n + 1 =>
      let r1 := p.get_uniform_location native uniform_name
      let r2 := call_uniform_location_times native r1.2.1 uniform_name n
      (r1.1 :: r2.1, r2.2.1, r1.2.2 + r2.2.2)

/-- Modelled from the spec: the texture manager collaborator (§6):
`get_texture(name)` returns the texture handle and fails if the name is
absent.  The manager's contents are the list of available texture names. -/
def get_texture (tm : List String) (tex_name : String) : Except String String :=
  if tex_name ∈ tm then Except.ok tex_name
  else Except.error ("No texture named " ++ tex_name)

/-- The conditional color-texture bind shared by render_shader and render_gui
(nova_renderer.cpp lines 341-344 and 134-137): the texture is looked up and
bound at unit 0 only when the renderable's color-texture name is nonempty. -/
def bind_color_texture (tm : List String) (color_texture : String) :
    Except String (List GLEvent) :=
  if color_texture = "" then Except.ok []
  else (get_texture tm color_texture).map fun t => [GLEvent.bindTexture t 0]

/-- The optional normal-map / data-texture binds of render_shader
(nova_renderer.cpp lines 346-352): looked up and bound at the given unit only
when the optional name is present. -/
def bind_optional_texture (tm : List String) (tex : Option String)
    (unit : Nat) : Except String (List GLEvent) :=
  match tex with
  | none => Except.ok []
  | some n => (get_texture tm n).map fun t => [GLEvent.bindTexture t unit]

/-- The events an optional-texture bind produces when it succeeds: nothing
when the optional name is absent, one bind at the given unit when present. -/
def optional_bind_events (o : Option String) (unit : Nat) : List GLEvent :=
  match o with
  | none => []
  | some nm => [GLEvent.bindTexture nm unit]

/-- nova_renderer::upload_model_matrix (nova_renderer.cpp lines 372-377):
builds the translation model matrix from the renderable's position, resolves
the "gbufferModel" uniform location and uploads the matrix.  Returns the
events and the updated program (its uniform cache may gain an entry). -/
def upload_model_matrix (native : String → Int) (geom : render_object)
    (program : gl_shader_program) : List GLEvent × gl_shader_program :=
  let model_matrix :=
    Mat4.translate3 Mat4.identity geom.position.1 geom.position.2.1 geom.position.2.2
  let r := program.get_uniform_location native "gbufferModel"
  ([GLEvent.uploadMat4 r.1 model_matrix], r.2.1)

/-- The body of the per-renderable loop of nova_renderer::render_shader
(nova_renderer.cpp lines 333-366): a renderable whose geometry has no data is
skipped (only a trace log); otherwise its color/normal/data textures are bound
at units 0/1/2 when present, the "lightmap" texture is bound at unit 3, the
model matrix is uploaded and the draw call is issued. -/
def process_renderable (native : String → Int) (tm : List String)
    (shader : gl_shader_program) (geom : render_object) :
    Except String (List GLEvent × gl_shader_program) :=
  if geom.geometry_has_data then
    (bind_color_texture tm geom.color_texture).bind fun cev =>
    (bind_optional_texture tm geom.normalmap 1).bind fun nev =>
    (bind_optional_texture tm geom.data_texture 2).bind fun dev =>
    (get_texture tm "lightmap").bind fun lm =>
    let u := upload_model_matrix native geom shader
    Except.ok (cev ++ nev ++ dev ++ [GLEvent.bindTexture lm 3] ++ u.1 ++
      [GLEvent.setActive geom.geometry_id, GLEvent.draw geom.geometry_id], u.2)
  else
    Except.ok ([GLEvent.logMessage "Skipping some geometry since it has no data"], shader)

/-- The loop over the geometry bucket in nova_renderer::render_shader,
threading the shader whose uniform cache the C++ mutates in place. -/
def process_all (native : String → Int) (tm : List String)
    (shader : gl_shader_program) :
    List render_object → Except String (List GLEvent × gl_shader_program)
  | [] => Except.ok ([], shader)
  | geom :: rest =>
      (process_renderable native tm shader geom).bind fun r1 =>
      (process_all native tm r1.2 rest).bind fun r2 =>
      Except.ok (r1.1 ++ r2.1, r2.2)

/-- nova_renderer::render_shader (nova_renderer.cpp lines 324-370): binds the
shader, fetches the geometry bucket for the shader's NAME via
mesh_store::get_meshes_for_shader(shader.get_name()), and processes every
renderable in it. -/
def render_shader (native : String → Int) (tm : List String)
    (meshes : String → List render_object) (shader : gl_shader_program) :
    Except String (List GLEvent × gl_shader_program) :=
  (process_all native tm shader (meshes shader.name)).bind fun r =>
  Except.ok (GLEvent.logMessage ("Rendering everything for shader " ++ shader.name) ::
    GLEvent.bindProgram shader.name :: r.1, r.2)

/-- Modelled from the spec: the shaderpack class (§4.4) is not in the
snapshot.  It owns its name and the mapping from pass name to compiled
gl_shader_program (exposed by get_loaded_shaders) and get_shader returns the
program stored under a name or a not-found error. -/
structure shaderpack where
  name : String
  loaded_shaders : List (String × gl_shader_program)
deriving DecidableEq

/-- Modelled from the spec: shaderpack::get_shader, "returns the compiled
program or a NotFound error" (§4.4). -/
def shaderpack.get_shader (sp : shaderpack) (n : String) :
    Except String gl_shader_program :=
  match sp.loaded_shaders.lookup n with
  | some s => Except.ok s
  | none => Except.error ("No shader named " ++ n)

/-- In the C++, get_shader returns a reference into the pack's map and
render_shader mutates that shader's uniform cache in place; in the embedding
the mutation is written back explicitly under the shader's key. -/
def shaderpack.update_shader (sp : shaderpack) (n : String)
    (s : gl_shader_program) : shaderpack :=
  { sp with loaded_shaders :=
      sp.loaded_shaders.map fun p => if p.1 = n then (n, s) else p }

/-- nova_renderer::render_gbuffers (nova_renderer.cpp lines 101-109): renders
the shader stored under "gbuffers_terrain" and then the one stored under
"gbuffers_water" — two hardcoded lookups, nothing else. -/
def render_gbuffers (native : String → Int) (tm : List String)
    (meshes : String → List render_object) (sp : shaderpack) :
    Except String (List GLEvent × shaderpack) :=
  (sp.get_shader "gbuffers_terrain").bind fun terrain_shader =>
  (render_shader native tm meshes terrain_shader).bind fun r1 =>
  let sp1 := sp.update_shader "gbuffers_terrain" r1.2
  (sp1.get_shader "gbuffers_water").bind fun water_shader =>
  (render_shader native tm meshes water_shader).bind fun r2 =>
  Except.ok (GLEvent.logMessage "Rendering gbuffer pass" :: r1.1 ++ r2.1,
    sp1.update_shader "gbuffers_water" r2.2)

/-- The settings the renderer reads out of
render_settings->get_options()["settings"] together with the configured
shaderpack name; the settings store itself is an external collaborator (§6). -/
structure render_config where
  viewWidth : ℚ
  viewHeight : ℚ
  shadowMapResolution : ℚ
  scalefactor : ℚ
  loadedShaderpack : String
deriving DecidableEq

/-- The orthographic viewport matrix of nova_renderer::upload_gui_model_matrix
(nova_renderer.cpp lines 384-389): translate by (-1,1,0), scale by the gui
scale factor, scale by the reciprocal view size, flip the y axis. -/
def gui_model_matrix (view_width view_height scalefactor : ℚ) : Mat4 :=
  Mat4.scale3
    (Mat4.scale3
      (Mat4.scale3 (Mat4.translate3 Mat4.identity (-1) 1 0)
        scalefactor scalefactor 1)
      (1 / view_width) (1 / view_height) 1)
    1 (-1) 1

/-- nova_renderer::upload_gui_model_matrix (nova_renderer.cpp lines 379-394):
reads viewWidth, viewHeight and scalefactor from the settings, builds the gui
viewport matrix and uploads it to the "gbufferModel" uniform. -/
def upload_gui_model_matrix (native : String → Int) (config : render_config)
    (program : gl_shader_program) : List GLEvent × gl_shader_program :=
  let r := program.get_uniform_location native "gbufferModel"
  ([GLEvent.uploadMat4 r.1
      (gui_model_matrix config.viewWidth config.viewHeight config.scalefactor)],
   r.2.1)

/-- The body of the per-renderable loop of nova_renderer::render_gui
(nova_renderer.cpp lines 133-140): bind the color texture at unit 0 when its
name is nonempty, then set the geometry active and draw.  There is no
has_data check, no lightmap bind and no per-object matrix upload here. -/
def render_gui_geom (tm : List String) (geom : render_object) :
    Except String (List GLEvent) :=
  (bind_color_texture tm geom.color_texture).bind fun cev =>
  Except.ok (cev ++ [GLEvent.setActive geom.geometry_id, GLEvent.draw geom.geometry_id])

/-- The loop over the "gui" geometry bucket in nova_renderer::render_gui. -/
def render_gui_geoms (tm : List String) :
    List render_object → Except String (List GLEvent)
  | [] => Except.ok []
  | geom :: rest =>
      (render_gui_geom tm geom).bind fun ev =>
      (render_gui_geoms tm rest).bind fun evs =>
      Except.ok (ev ++ evs)

/-- nova_renderer::render_gui (nova_renderer.cpp lines 121-141): clear the
depth buffer only, bind the shader stored under "gui", upload the gui model
matrix, then draw every renderable of the "gui" bucket. -/
def render_gui (native : String → Int) (tm : List String)
    (meshes : String → List render_object) (config : render_config)
    (sp : shaderpack) : Except String (List GLEvent × shaderpack) :=
  (sp.get_shader "gui").bind fun gui_shader =>
  let u := upload_gui_model_matrix native config gui_shader
  (render_gui_geoms tm (meshes "gui")).bind fun evs =>
  Except.ok (GLEvent.logMessage "Rendering GUI" :: GLEvent.clearBuffers false true ::
    GLEvent.bindProgram gui_shader.name :: u.1 ++ evs,
    sp.update_shader "gui" u.2)

/-- Modelled from the spec: the framebuffer builder (§4.3) is not in the
snapshot.  It accumulates a target size and a set of enabled color
attachments; enabling an index twice is idempotent, and the builder is
reusable after build. -/
structure framebuffer_builder where
  width : ℚ
  height : ℚ
  size_set : Bool
  color_attachments : List Nat
deriving DecidableEq

/-- Modelled from the spec: framebuffer_builder::set_framebuffer_size. -/
def framebuffer_builder.set_framebuffer_size (b : framebuffer_builder)
    (w h : ℚ) : framebuffer_builder :=
  { b with width := w, height := h, size_set := true }

/-- Modelled from the spec: framebuffer_builder::enable_color_attachment;
"duplicate indices are idempotent" (§4.3). -/
def framebuffer_builder.enable_color_attachment (b : framebuffer_builder)
    (i : Nat) : framebuffer_builder :=
  if i ∈ b.color_attachments then b
  else { b with color_attachments := b.color_attachments ++ [i] }

/-- Events emitted by the configuration-reaction path of the orchestrator. -/
inductive ConfigEvent where
  | loadShaderpack : String → ConfigEvent
  | registerBuffersWithShader : String → ConfigEvent
  | buildMainFramebuffer : ℚ → ℚ → List Nat → ConfigEvent
  | buildShadowFramebuffer : ℚ → ℚ → List Nat → ConfigEvent
deriving DecidableEq

/-- link_up_uniform_buffers (nova_renderer.cpp lines 416-418): iterates the
loaded shaders and registers the uniform buffers with each one.
uniform_buffer_store::register_all_buffers_with_shader itself belongs to the
uniform buffer store, which is not in the snapshot, so each registration is
one event. -/
def link_up_uniform_buffers (shaders : List (String × gl_shader_program)) :
    List ConfigEvent :=
  shaders.map fun p => ConfigEvent.registerBuffersWithShader p.1

/-- The main framebuffer builder chain of
nova_renderer::create_framebuffers_from_shaderpack (nova_renderer.cpp lines
298-306): the view size and color attachments 0-7. -/
def main_builder_configured (cfg : render_config)
    (b : framebuffer_builder) : framebuffer_builder :=
  ((((((((b.set_framebuffer_size cfg.viewWidth
    cfg.viewHeight).enable_color_attachment 0).enable_color_attachment
    1).enable_color_attachment 2).enable_color_attachment
    3).enable_color_attachment 4).enable_color_attachment
    5).enable_color_attachment 6).enable_color_attachment 7

/-- The shadow framebuffer builder chain of
nova_renderer::create_framebuffers_from_shaderpack (nova_renderer.cpp lines
310-314): the square shadow-map resolution and color attachments 0-3. -/
def shadow_builder_configured (cfg : render_config)
    (b : framebuffer_builder) : framebuffer_builder :=
  ((((b.set_framebuffer_size cfg.shadowMapResolution
    cfg.shadowMapResolution).enable_color_attachment
    0).enable_color_attachment 1).enable_color_attachment
    2).enable_color_attachment 3

/-- nova_renderer::create_framebuffers_from_shaderpack (nova_renderer.cpp
lines 292-318): configures the main builder with the view size and color
attachments 0-7 and builds the main framebuffer, then configures the shadow
builder with the shadow-map resolution (square) and attachments 0-3 and
builds the shadow framebuffer.  Returns the build events and the builders
(member fields, reused across rebuilds). -/
def create_framebuffers_from_shaderpack (cfg : render_config)
    (main_builder shadow_builder : framebuffer_builder) :
    List ConfigEvent × framebuffer_builder × framebuffer_builder :=
  let mb := main_builder_configured cfg main_builder
  let sb := shadow_builder_configured cfg shadow_builder
  ([ConfigEvent.buildMainFramebuffer mb.width mb.height mb.color_attachments,
    ConfigEvent.buildShadowFramebuffer sb.width sb.height sb.color_attachments],
   mb, sb)

/-- The state of the nova_renderer singleton that the embedded operations
touch: the loaded shaderpack, the texture manager contents, the mesh store,
the settings, the camera matrices, the two framebuffer builders, the external
shaderpack loader (data_loading, out of scope) and the native uniform-location
lookup (glGetUniformLocation on the bound program). -/
structure nova_renderer_state where
  loaded_shaderpack : Option shaderpack
  texture_names : List String
  meshes : String → List render_object
  render_settings : render_config
  camera_projection : Mat4
  camera_view : Mat4
  main_framebuffer_builder : framebuffer_builder
  shadow_framebuffer_builder : framebuffer_builder
  shaderpack_loader : String → shaderpack
  native_uniform_location : String → Int

/-- nova_renderer::load_new_shaderpack (nova_renderer.cpp lines 279-290):
loads the shaderpack by name, wires the uniform buffers up to every loaded
shader, and rebuilds both framebuffers from the current settings. -/
def load_new_shaderpack (st : nova_renderer_state)
    (new_shaderpack_name : String) : List ConfigEvent × nova_renderer_state :=
  let sp := st.shaderpack_loader new_shaderpack_name
  let fb := create_framebuffers_from_shaderpack st.render_settings
    st.main_framebuffer_builder st.shadow_framebuffer_builder
  (ConfigEvent.loadShaderpack new_shaderpack_name ::
     link_up_uniform_buffers sp.loaded_shaders ++ fb.1,
   { st with loaded_shaderpack := some sp,
             main_framebuffer_builder := fb.2.1,
             shadow_framebuffer_builder := fb.2.2 })

/-- nova_renderer::on_config_change (nova_renderer.cpp lines 236-253): load a
new shaderpack when none is loaded yet or when the configured name differs
from the loaded pack's name; an equal name does nothing. -/
def on_config_change (st : nova_renderer_state) (new_config : render_config) :
    List ConfigEvent × nova_renderer_state :=
  let shaderpack_name := new_config.loadedShaderpack
  match st.loaded_shaderpack with
  | none => load_new_shaderpack st shaderpack_name
  | some sp =>
      if shaderpack_name ≠ sp.name then load_new_shaderpack st shaderpack_name
      else ([], st)

/-- nova_renderer::render_shadow_pass (nova_renderer.cpp lines 97-99): only a
trace log for now. -/
def render_shadow_pass : List GLEvent :=
  [GLEvent.logMessage "Rendering shadow pass"]

/-- nova_renderer::render_composite_passes (nova_renderer.cpp lines 111-113):
only a trace log for now. -/
def render_composite_passes : List GLEvent :=
  [GLEvent.logMessage "Rendering composite passes"]

/-- nova_renderer::render_final_pass (nova_renderer.cpp lines 115-119): only a
trace log for now. -/
def render_final_pass : List GLEvent :=
  [GLEvent.logMessage "Rendering final pass"]

/-- nova_renderer::update_gbuffer_ubos (nova_renderer.cpp lines 396-406):
sends the camera's projection and view matrices to the per-frame uniform
buffer. -/
def update_gbuffer_ubos (st : nova_renderer_state) : List GLEvent :=
  [GLEvent.sendPerFrameData st.camera_projection st.camera_view]

/-- nova_renderer::render_frame (nova_renderer.cpp lines 64-95): recalculate
the camera frustum, upload new geometry, shadow pass, clear the main color and
depth targets, update the per-frame uniforms, gbuffer passes, composite
passes, final pass, GUI pass, end the frame.  Dereferencing a null
loaded_shaderpack is modelled as an error. -/
def render_frame (st : nova_renderer_state) :
    Except String (List GLEvent × nova_renderer_state) :=
  match st.loaded_shaderpack with
  | none => Except.error "no shaderpack loaded"
  | some sp =>
      (render_gbuffers st.native_uniform_location st.texture_names st.meshes sp).bind fun rg =>
      (render_gui st.native_uniform_location st.texture_names st.meshes
        st.render_settings rg.2).bind fun ru =>
      Except.ok (GLEvent.recalculateFrustum :: GLEvent.uploadNewGeometry ::
        render_shadow_pass ++ GLEvent.clearBuffers true true ::
        update_gbuffer_ubos st ++ rg.1 ++ render_composite_passes ++
        render_final_pass ++ ru.1 ++ [GLEvent.endFrame],
        { st with loaded_shaderpack := some ru.2 })

/-- Modelled from the spec: membership of a pass in the gbuffer stage.  The
spec filters "the Shaderpack's passes ... to the gbuffer stage"; the source's
own TODO (nova_renderer.cpp line 104) identifies the stage with the shaders
whose name starts with the gbuffers stage tag. -/
def is_gbuffer_stage (pass_name : String) : Bool :=
  List.isPrefixOf "gbuffers".toList pass_name.toList

/-- The sequence of program binds occurring in a trace, in order. -/
def program_binds (tr : List GLEvent) : List String :=
  tr.filterMap fun e =>
    match e with
    | GLEvent.bindProgram n => some n
    | _ => none

/-- The behaviour claim C2 asserts of the gbuffer step, stated over the
embedded render_gbuffers: every gbuffer-stage pass of the pack gets its
program bound during the step, and the geometry drawn for such a pass comes
from the bucket matching the program's FILTER (every renderable of that
bucket with uploaded data is drawn). -/
def gbuffers_iteration_claim : Prop :=
  ∀ (native : String → Int) (tm : List String)
    (meshes : String → List render_object) (sp : shaderpack)
    (tr : List GLEvent) (sp2 : shaderpack),
    render_gbuffers native tm meshes sp = Except.ok (tr, sp2) →
    ∀ p, p ∈ sp.loaded_shaders → is_gbuffer_stage p.1 = true →
      GLEvent.bindProgram p.2.name ∈ tr ∧
      ∀ g, g ∈ meshes p.2.filter → g.geometry_has_data = true →
        GLEvent.draw g.geometry_id ∈ tr

/-- The copy behaviour claim C3 asserts: a copy reproduces the descriptor
fields (name, filter) but never the GPU-resource ownership — a copy holds a
null handle and no attached stages, so destroying it releases nothing. -/
def copy_duplicates_only_descriptor : Prop :=
  ∀ p : gl_shader_program,
    p.copy_construct.name = p.name ∧
    p.copy_construct.filter = p.filter ∧
    p.copy_construct.gl_name = 0 ∧
    p.copy_construct.destruct = []

/-- Sample compiled terrain program; its filter deliberately differs from its
name, as the two are distinct fields in the source. -/
def terrain_program : gl_shader_program :=
  { gl_name := 1, name := "gbuffers_terrain", added_shaders := [11, 12],
    uniform_locations := [], filter := "terrain_stuff" }

/-- Sample compiled water program. -/
def water_program : gl_shader_program :=
  { gl_name := 2, name := "gbuffers_water", added_shaders := [21, 22],
    uniform_locations := [], filter := "water_stuff" }

/-- Sample compiled sky program: a third gbuffer-stage pass beyond the two the
code hardcodes. -/
def skybasic_program : gl_shader_program :=
  { gl_name := 3, name := "gbuffers_skybasic", added_shaders := [31, 32],
    uniform_locations := [], filter := "sky_stuff" }

/-- Sample compiled gui program. -/
def gui_program : gl_shader_program :=
  { gl_name := 4, name := "gui", added_shaders := [41, 42],
    uniform_locations := [], filter := "gui" }

/-- A sample loaded shaderpack named "A" holding the four sample programs. -/
def sample_pack : shaderpack :=
  { name := "A",
    loaded_shaders :=
      [("gbuffers_terrain", terrain_program), ("gbuffers_water", water_program),
       ("gbuffers_skybasic", skybasic_program), ("gui", gui_program)] }

/-- A sample renderable with uploaded data and no textures. -/
def sample_geom : render_object :=
  { geometry_id := 7, geometry_has_data := true, position := (0, 0, 0),
    color_texture := "", normalmap := none, data_texture := none }

/-- A sample mesh store: the bucket for the terrain program's FILTER holds one
renderable; every other bucket (in particular every bucket keyed by a program
NAME) is empty. -/
def sample_meshes : String → List render_object := fun n =>
  if n = "terrain_stuff" then [sample_geom] else []

/-- A sample native uniform lookup that knows no uniform (glGetUniformLocation
returns the -1 sentinel). -/
def sample_native : String → Int := fun _ => -1

/-- Sample settings. -/
def sample_config : render_config :=
  { viewWidth := 1, viewHeight := 1, shadowMapResolution := 1,
    scalefactor := 1, loadedShaderpack := "A" }

/-- A default-constructed framebuffer builder. -/
def empty_builder : framebuffer_builder :=
  { width := 0, height := 0, size_set := false, color_attachments := [] }

/-- A sample renderer state with the sample pack loaded. -/
def sample_state : nova_renderer_state :=
  { loaded_shaderpack := some sample_pack,
    texture_names := [],
    meshes := sample_meshes,
    render_settings := sample_config,
    camera_projection := Mat4.cameraMat 0,
    camera_view := Mat4.cameraMat 1,
    main_framebuffer_builder := empty_builder,
    shadow_framebuffer_builder := empty_builder,
    shaderpack_loader := fun n => { name := n, loaded_shaders := [("gui", gui_program)] },
    native_uniform_location := sample_native }

/-- The gui program after its first "gbufferModel" lookup cached the -1
sentinel. -/
def gui_program_cached : gl_shader_program :=
  { gui_program with uniform_locations := [("gbufferModel", -1)] }

/-- The sample pack after one frame: only the gui program's uniform cache
changed. -/
def sample_pack_after : shaderpack :=
  { name := "A",
    loaded_shaders :=
      [("gbuffers_terrain", terrain_program), ("gbuffers_water", water_program),
       ("gbuffers_skybasic", skybasic_program), ("gui", gui_program_cached)] }

/-- A texture manager holding the mandatory lightmap and the three textures
of the textured sample renderable. -/
def lightmap_tm : List String :=
  ["lightmap", "tex_color", "tex_normal", "tex_data"]

/-- The same texture manager with the mandatory lightmap missing. -/
def no_lightmap_tm : List String :=
  ["tex_color", "tex_normal", "tex_data"]

/-- A renderable with uploaded data and all three textures named. -/
def textured_geom : render_object :=
  { geometry_id := 9, geometry_has_data := true, position := (1, 2, 3),
    color_texture := "tex_color", normalmap := some "tex_normal",
    data_texture := some "tex_data" }

/-- A gui renderable with NO uploaded data and a color texture; the gui pass
draws it anyway. -/
def gui_geom : render_object :=
  { geometry_id := 5, geometry_has_data := false, position := (0, 0, 0),
    color_texture := "tex_color", normalmap := none, data_texture := none }

/-- A mesh store whose "gui" bucket holds the gui renderable. -/
def gui_meshes : String → List render_object := fun n =>
  if n = "gui" then [gui_geom] else []

/-- The sample renderer state after one frame. -/
def sample_state_after : nova_renderer_state :=
  { sample_state with loaded_shaderpack := some sample_pack_after }

/-- The sample renderer state before any shaderpack has been loaded. -/
def config_state_no_pack : nova_renderer_state :=
  { sample_state with loaded_shaderpack := none }

/-- The trace render_gbuffers produces on the sample pack with the sample mesh
store (all name-keyed buckets empty). -/
def sample_gbuffers_trace : List GLEvent :=
  [GLEvent.logMessage "Rendering gbuffer pass",
   GLEvent.logMessage "Rendering everything for shader gbuffers_terrain",
   GLEvent.bindProgram "gbuffers_terrain",
   GLEvent.logMessage "Rendering everything for shader gbuffers_water",
   GLEvent.bindProgram "gbuffers_water"]

/-- The full event trace of one render_frame call on the sample state. -/
def sample_frame_trace : List GLEvent :=
  [GLEvent.recalculateFrustum, GLEvent.uploadNewGeometry,
   GLEvent.logMessage "Rendering shadow pass",
   GLEvent.clearBuffers true true,
   GLEvent.sendPerFrameData (Mat4.cameraMat 0) (Mat4.cameraMat 1),
   GLEvent.logMessage "Rendering gbuffer pass",
   GLEvent.logMessage "Rendering everything for shader gbuffers_terrain",
   GLEvent.bindProgram "gbuffers_terrain",
   GLEvent.logMessage "Rendering everything for shader gbuffers_water",
   GLEvent.bindProgram "gbuffers_water",
   GLEvent.logMessage "Rendering composite passes",
   GLEvent.logMessage "Rendering final pass",
   GLEvent.logMessage "Rendering GUI",
   GLEvent.clearBuffers false true,
   GLEvent.bindProgram "gui",
   GLEvent.uploadMat4 (-1) (gui_model_matrix 1 1 1),
   GLEvent.endFrame]

/-! ### Helper lemmas -/

/-- Replacing the entry stored under one key does not change what lookup
returns for a different key. -/
theorem lookup_map_update (l : List (String × gl_shader_program))
    (n m : String) (s : gl_shader_program) (h : m ≠ n) :
    (l.map fun p => if p.1 = n then (n, s) else p).lookup m = l.lookup m := by
  induction l with
  | nil => simp
  | cons hd tl ih =>
      obtain ⟨k, v⟩ := hd
      simp only [List.map_cons]
      by_cases hh : k = n
      · subst hh
        rw [if_pos (show (k, v).1 = k from rfl)]
        have hm : (m == k) = false := by simp [h]
        simp [List.lookup, hm, ih]
      · rw [if_neg (show ¬(k, v).1 = n from hh)]
        cases hmk : m == k <;> simp [List.lookup, hmk, ih]

/-- Updating one shader entry does not change what get_shader returns for a
different key. -/
theorem get_shader_update_ne (sp : shaderpack) (n m : String)
    (s : gl_shader_program) (h : m ≠ n) :
    (sp.update_shader n s).get_shader m = sp.get_shader m := by
  unfold shaderpack.get_shader shaderpack.update_shader
  rw [lookup_map_update sp.loaded_shaders n m s h]

/-- enable_color_attachment never changes the accumulated size. -/
theorem enable_color_attachment_size (b : framebuffer_builder) (i : Nat) :
    (b.enable_color_attachment i).width = b.width ∧
    (b.enable_color_attachment i).height = b.height := by
  unfold framebuffer_builder.enable_color_attachment
  split <;> simp

/-- The configured main builder carries the view size. -/
theorem main_builder_configured_size (cfg : render_config)
    (b : framebuffer_builder) :
    (main_builder_configured cfg b).width = cfg.viewWidth ∧
    (main_builder_configured cfg b).height = cfg.viewHeight := by
  unfold main_builder_configured
  constructor <;>
    simp [(enable_color_attachment_size _ _).1,
      (enable_color_attachment_size _ _).2, framebuffer_builder.set_framebuffer_size]

/-- The configured shadow builder carries the square shadow-map resolution. -/
theorem shadow_builder_configured_size (cfg : render_config)
    (b : framebuffer_builder) :
    (shadow_builder_configured cfg b).width = cfg.shadowMapResolution ∧
    (shadow_builder_configured cfg b).height = cfg.shadowMapResolution := by
  unfold shadow_builder_configured
  constructor <;>
    simp [(enable_color_attachment_size _ _).1,
      (enable_color_attachment_size _ _).2, framebuffer_builder.set_framebuffer_size]

/-- The two build events of create_framebuffers_from_shaderpack: one main
framebuffer at the configured view size, then one shadow framebuffer square
at the shadow-map resolution. -/
theorem create_framebuffers_sizes (cfg : render_config)
    (mb sb : framebuffer_builder) :
    (create_framebuffers_from_shaderpack cfg mb sb).1 =
      [ConfigEvent.buildMainFramebuffer cfg.viewWidth cfg.viewHeight
         (main_builder_configured cfg mb).color_attachments,
       ConfigEvent.buildShadowFramebuffer cfg.shadowMapResolution
         cfg.shadowMapResolution
         (shadow_builder_configured cfg sb).color_attachments] := by
  simp only [create_framebuffers_from_shaderpack]
  rw [(main_builder_configured_size cfg mb).1,
    (main_builder_configured_size cfg mb).2,
    (shadow_builder_configured_size cfg sb).1,
    (shadow_builder_configured_size cfg sb).2]

/-- Processing a concatenated geometry list splits into processing the two
halves in sequence, the shader state threaded through. -/
theorem process_all_append (native : String → Int) (tm : List String)
    (shader : gl_shader_program) (xs ys : List render_object) :
    process_all native tm shader (xs ++ ys) =
      (process_all native tm shader xs).bind fun r1 =>
      (process_all native tm r1.2 ys).bind fun r2 =>
      Except.ok (r1.1 ++ r2.1, r2.2) := by
  induction xs generalizing shader with
  | nil =>
      simp only [List.nil_append, process_all, Except.bind]
      cases process_all native tm shader ys with
      | error e => simp [Except.bind]
      | ok r => simp [Except.bind]
  | cons x xs ih =>
      simp only [List.cons_append, process_all]
      cases process_renderable native tm shader x with
      | error e => simp [Except.bind]
      | ok r1 =>
          simp only [Except.bind, List.append_eq]
          rw [ih r1.2]
          cases process_all native tm r1.2 xs with
          | error e => simp [Except.bind]
          | ok r2 =>
              simp only [Except.bind]
              cases process_all native tm r2.2 ys with
              | error e => simp [Except.bind]
              | ok r3 => simp [Except.bind]

/-- With the name in the cache, every further call returns the cached value,
leaves the program unchanged and performs no native lookup. -/
theorem call_times_cached (native : String → Int) (p : gl_shader_program)
    (uniform_name : String) (loc : Int)
    (h : p.uniform_locations.lookup uniform_name = some loc) (n : Nat) :
    call_uniform_location_times native p uniform_name n =
      (List.replicate n loc, p, 0) := by
  induction n with
  | zero => simp [call_uniform_location_times]
  | succ m ih =>
      simp [call_uniform_location_times, gl_shader_program.get_uniform_location,
        h, ih, List.replicate_succ]

/-- Every renderable of a bucket successfully processed by the gui loop
produces its draw event in the collected trace. -/
theorem render_gui_geoms_draws (tm : List String) (gs : List render_object)
    (evs : List GLEvent) (h : render_gui_geoms tm gs = Except.ok evs) :
    ∀ g ∈ gs, GLEvent.draw g.geometry_id ∈ evs := by
  induction gs generalizing evs with
  | nil => simp
  | cons x xs ih =>
      unfold render_gui_geoms at h
      cases hx : render_gui_geom tm x with
      | error e => rw [hx] at h; simp [Except.bind] at h
      | ok ev =>
          rw [hx] at h
          cases hxs : render_gui_geoms tm xs with
          | error e => rw [hxs] at h; simp [Except.bind] at h
          | ok evs2 =>
              rw [hxs] at h
              simp only [Except.bind, Except.ok.injEq] at h
              subst h
              intro g hg
              rcases List.mem_cons.mp hg with hg1 | hg2
              · subst hg1
                apply List.mem_append_left
                unfold render_gui_geom at hx
                cases hcx : bind_color_texture tm g.color_texture with
                | error e => rw [hcx] at hx; simp [Except.bind] at hx
                | ok cev =>
                    rw [hcx] at hx
                    simp only [Except.bind, Except.ok.injEq] at hx
                    subst hx
                    simp
              · exact List.mem_append_right _ (ih evs2 hxs g hg2)

/-! ### Claim C3 -/

/-- C3 counterexample: the claim "copy-construction duplicates only the
logical descriptor fields (name, filter) and never the GPU-resource
ownership" is false: the copy constructor is `= default`
(gl_shader_program.h line 80), a memberwise copy, so copying
terrain_program (GL handle 1) yields a copy whose handle is 1, not null,
and whose destruction would release the same GPU resources. -/
theorem copy_construct_shares_gpu_ownership :
    ¬ copy_duplicates_only_descriptor := by
  intro h
  have h2 := (h terrain_program).2.2.1
  simp [terrain_program, gl_shader_program.copy_construct] at h2

/-- C3 (amended): copy-construction is the defaulted memberwise copy — it
duplicates every field including the GPU handle and the attached stage
handles, so copy and source share GPU-resource ownership; move-construction
transfers ownership and nulls the source's handle and stage list so that
destroying the moved-from object releases nothing. -/
theorem copy_and_move_semantics (p : gl_shader_program) :
    p.copy_construct = p ∧
    p.move_construct.1 = p ∧
    p.move_construct.2.gl_name = 0 ∧
    p.move_construct.2.destruct = [] := by
  refine ⟨rfl, rfl, rfl, ?_⟩
  simp [gl_shader_program.move_construct, gl_shader_program.destruct]

/-! ### Claim C4 -/

/-- C4: for a compiled program whose cache does not yet hold the requested
uniform name, any number n ≥ 1 of get_uniform_location calls with that name
performs exactly one native lookup in total, and every one of the n calls
returns the same cached value — the one the native lookup produced, including
when it is the -1 not-found sentinel — and no call fails. -/
theorem get_uniform_location_caches (native : String → Int)
    (p : gl_shader_program) (uniform_name : String)
    (h : p.uniform_locations.lookup uniform_name = none)
    (n : Nat) (hn : 1 ≤ n) :
    (call_uniform_location_times native p uniform_name n).1 =
      List.replicate n (native uniform_name) ∧
    (call_uniform_location_times native p uniform_name n).2.2 = 1 := by
  obtain ⟨m, rfl⟩ : ∃ m, n = m + 1 :=
    ⟨n - 1, (Nat.succ_pred_eq_of_pos hn).symm⟩
  have hcached :
      (({ p with uniform_locations :=
            (uniform_name, native uniform_name) :: p.uniform_locations } :
          gl_shader_program).uniform_locations).lookup uniform_name =
        some (native uniform_name) := by
    simp [List.lookup]
  constructor <;>
    simp [call_uniform_location_times, gl_shader_program.get_uniform_location,
      h, call_times_cached native _ uniform_name _ hcached m, List.replicate_succ]

/-- C4 witness: three calls for "gbufferModel" against the freshly compiled
terrain program with the all-unknown native lookup return the -1 sentinel
three times with exactly one native lookup. -/
theorem get_uniform_location_caches_witness :
    terrain_program.uniform_locations.lookup "gbufferModel" = none ∧ 1 ≤ 3 ∧
    ((call_uniform_location_times sample_native terrain_program "gbufferModel" 3).1 =
        List.replicate 3 (sample_native "gbufferModel") ∧
      (call_uniform_location_times sample_native terrain_program "gbufferModel" 3).2.2 = 1) :=
  ⟨rfl, by decide,
    get_uniform_location_caches sample_native terrain_program "gbufferModel" rfl 3 (by decide)⟩

/-! ### Claim C1 -/

/-- Reduction of on_config_change when nothing is loaded yet. -/
theorem on_config_change_none (st : nova_renderer_state) (cfg : render_config)
    (h : st.loaded_shaderpack = none) :
    on_config_change st cfg = load_new_shaderpack st cfg.loadedShaderpack := by
  unfold on_config_change
  rw [h]

/-- Reduction of on_config_change when a pack is loaded. -/
theorem on_config_change_some (st : nova_renderer_state) (cfg : render_config)
    (sp : shaderpack) (h : st.loaded_shaderpack = some sp) :
    on_config_change st cfg =
      if cfg.loadedShaderpack ≠ sp.name
      then load_new_shaderpack st cfg.loadedShaderpack
      else ([], st) := by
  unfold on_config_change
  rw [h]

/-- C1: on a configuration-change notification the orchestrator emits exactly
one shaderpack load, followed by the uniform-buffer wiring pass over the
loaded pack's shaders, followed by exactly one rebuild of the main
framebuffer and one of the shadow framebuffer, in that order, precisely when
no shaderpack is loaded yet or the configured name differs from the loaded
pack's name; when the names are equal nothing at all happens. -/
theorem on_config_change_reloads_iff (st : nova_renderer_state)
    (cfg : render_config) :
    ((st.loaded_shaderpack = none ∨
        (∃ sp, st.loaded_shaderpack = some sp ∧ cfg.loadedShaderpack ≠ sp.name)) →
      (on_config_change st cfg).1 =
        ConfigEvent.loadShaderpack cfg.loadedShaderpack ::
        link_up_uniform_buffers
          (st.shaderpack_loader cfg.loadedShaderpack).loaded_shaders ++
        [ConfigEvent.buildMainFramebuffer st.render_settings.viewWidth
           st.render_settings.viewHeight
           (main_builder_configured st.render_settings
             st.main_framebuffer_builder).color_attachments,
         ConfigEvent.buildShadowFramebuffer st.render_settings.shadowMapResolution
           st.render_settings.shadowMapResolution
           (shadow_builder_configured st.render_settings
             st.shadow_framebuffer_builder).color_attachments]) ∧
    ((∃ sp, st.loaded_shaderpack = some sp ∧ cfg.loadedShaderpack = sp.name) →
      (on_config_change st cfg).1 = []) := by
  constructor
  · rintro (hnone | ⟨sp, hsp, hne⟩)
    · rw [on_config_change_none st cfg hnone]
      simp only [load_new_shaderpack, create_framebuffers_sizes]
    · rw [on_config_change_some st cfg sp hsp, if_pos hne]
      simp only [load_new_shaderpack, create_framebuffers_sizes]
  · rintro ⟨sp, hsp, heq⟩
    rw [on_config_change_some st cfg sp hsp,
      if_neg (show ¬cfg.loadedShaderpack ≠ sp.name from fun hc => hc heq)]

/-- C1 witness: with no pack loaded and configured name "A" the full
load-wire-rebuild trace is emitted, and with pack "A" already loaded and the
same configured name the trace is empty. -/
theorem on_config_change_reloads_iff_witness :
    ((on_config_change config_state_no_pack sample_config).1 =
      ConfigEvent.loadShaderpack sample_config.loadedShaderpack ::
      link_up_uniform_buffers
        (config_state_no_pack.shaderpack_loader
          sample_config.loadedShaderpack).loaded_shaders ++
      [ConfigEvent.buildMainFramebuffer
         config_state_no_pack.render_settings.viewWidth
         config_state_no_pack.render_settings.viewHeight
         (main_builder_configured config_state_no_pack.render_settings
           config_state_no_pack.main_framebuffer_builder).color_attachments,
       ConfigEvent.buildShadowFramebuffer
         config_state_no_pack.render_settings.shadowMapResolution
         config_state_no_pack.render_settings.shadowMapResolution
         (shadow_builder_configured config_state_no_pack.render_settings
           config_state_no_pack.shadow_framebuffer_builder).color_attachments]) ∧
    (on_config_change sample_state sample_config).1 = [] :=
  ⟨(on_config_change_reloads_iff config_state_no_pack sample_config).1 (Or.inl rfl),
   (on_config_change_reloads_iff sample_state sample_config).2
     ⟨sample_pack, rfl, rfl⟩⟩

/-! ### Claim C2 -/

/-- Splitting program binds over trace concatenation. -/
theorem program_binds_append (a b : List GLEvent) :
    program_binds (a ++ b) = program_binds a ++ program_binds b := by
  simp [program_binds]

/-- Any successful conditional color bind contains no program bind. -/
theorem bind_color_texture_program_binds (tm : List String) (c : String)
    (ev : List GLEvent) (h : bind_color_texture tm c = Except.ok ev) :
    program_binds ev = [] := by
  unfold bind_color_texture at h
  by_cases hce : c = ""
  · rw [if_pos hce] at h
    simp only [Except.ok.injEq] at h
    subst h; rfl
  · rw [if_neg hce] at h
    cases hg : get_texture tm c with
    | error e => rw [hg] at h; simp [Except.map] at h
    | ok t =>
        rw [hg] at h
        simp only [Except.map, Except.ok.injEq] at h
        subst h; rfl

/-- Any successful optional-texture bind contains no program bind. -/
theorem bind_optional_texture_program_binds (tm : List String)
    (o : Option String) (u : Nat) (ev : List GLEvent)
    (h : bind_optional_texture tm o u = Except.ok ev) :
    program_binds ev = [] := by
  cases o with
  | none =>
      simp only [bind_optional_texture, Except.ok.injEq] at h
      subst h; rfl
  | some nm =>
      simp only [bind_optional_texture] at h
      cases hg : get_texture tm nm with
      | error e => rw [hg] at h; simp [Except.map] at h
      | ok t =>
          rw [hg] at h
          simp only [Except.map, Except.ok.injEq] at h
          subst h; rfl

/-- The event lists produced for one renderable never contain a program
bind. -/
theorem process_renderable_program_binds (native : String → Int)
    (tm : List String) (shader : gl_shader_program) (geom : render_object)
    (r : List GLEvent × gl_shader_program)
    (h : process_renderable native tm shader geom = Except.ok r) :
    program_binds r.1 = [] := by
  unfold process_renderable at h
  by_cases hd : geom.geometry_has_data
  · rw [if_pos hd] at h
    cases hc : bind_color_texture tm geom.color_texture with
    | error e => rw [hc] at h; simp [Except.bind] at h
    | ok cev =>
        rw [hc] at h
        cases hn : bind_optional_texture tm geom.normalmap 1 with
        | error e => rw [hn] at h; simp [Except.bind] at h
        | ok nev =>
            rw [hn] at h
            cases hdt : bind_optional_texture tm geom.data_texture 2 with
            | error e => rw [hdt] at h; simp [Except.bind] at h
            | ok dev =>
                rw [hdt] at h
                cases hlm : get_texture tm "lightmap" with
                | error e => rw [hlm] at h; simp [Except.bind] at h
                | ok lm =>
                    rw [hlm] at h
                    simp only [Except.bind, Except.ok.injEq] at h
                    subst h
                    simp only [program_binds_append,
                      bind_color_texture_program_binds tm _ cev hc,
                      bind_optional_texture_program_binds tm _ 1 nev hn,
                      bind_optional_texture_program_binds tm _ 2 dev hdt]
                    rfl
  · rw [if_neg hd] at h
    simp only [Except.ok.injEq] at h
    subst h
    rfl

/-- The trace of a whole geometry bucket never contains a program bind. -/
theorem process_all_program_binds (native : String → Int) (tm : List String)
    (shader : gl_shader_program) (gs : List render_object)
    (r : List GLEvent × gl_shader_program)
    (h : process_all native tm shader gs = Except.ok r) :
    program_binds r.1 = [] := by
  induction gs generalizing shader r with
  | nil =>
      unfold process_all at h
      simp only [Except.ok.injEq] at h
      subst h; rfl
  | cons x xs ih =>
      unfold process_all at h
      cases hx : process_renderable native tm shader x with
      | error e => rw [hx] at h; simp [Except.bind] at h
      | ok r1 =>
          rw [hx] at h
          simp only [Except.bind] at h
          cases hxs : process_all native tm r1.2 xs with
          | error e => rw [hxs] at h; simp [Except.bind] at h
          | ok r2 =>
              rw [hxs] at h
              simp only [Except.bind, Except.ok.injEq] at h
              subst h
              simp [program_binds_append,
                process_renderable_program_binds native tm shader x r1 hx,
                ih r1.2 r2 hxs]

/-- The trace of render_shader is its log, the bind of the shader's own name,
then the processing of the bucket stored under the shader's NAME. -/
theorem render_shader_trace (native : String → Int) (tm : List String)
    (meshes : String → List render_object) (shader : gl_shader_program)
    (r : List GLEvent × gl_shader_program)
    (h : render_shader native tm meshes shader = Except.ok r) :
    ∃ rp, process_all native tm shader (meshes shader.name) = Except.ok rp ∧
      r.1 = GLEvent.logMessage ("Rendering everything for shader " ++ shader.name) ::
        GLEvent.bindProgram shader.name :: rp.1 ∧
      r.2 = rp.2 := by
  unfold render_shader at h
  cases hp : process_all native tm shader (meshes shader.name) with
  | error e => rw [hp] at h; simp [Except.bind] at h
  | ok rp =>
      rw [hp] at h
      simp only [Except.bind, Except.ok.injEq] at h
      subst h
      exact ⟨rp, rfl, rfl, rfl⟩

/-- C2 counterexample: the claim that the gbuffer step iterates over ALL the
pack's gbuffer-stage passes (in pass_index order) and fetches each program's
geometry bucket by its FILTER is false: with a pack containing a third
gbuffer-stage pass "gbuffers_skybasic", render_gbuffers (which hardcodes
"gbuffers_terrain" then "gbuffers_water", nova_renderer.cpp lines 105-108)
never binds it, and the renderable sitting in the terrain program's filter
bucket is never drawn because render_shader fetches the bucket by program
name. -/
theorem render_gbuffers_hardcodes_passes : ¬ gbuffers_iteration_claim := by
  intro h
  have hrun : render_gbuffers sample_native [] sample_meshes sample_pack =
      Except.ok (sample_gbuffers_trace, sample_pack) := by rfl
  have h2 := h sample_native [] sample_meshes sample_pack sample_gbuffers_trace
    sample_pack hrun ("gbuffers_skybasic", skybasic_program) (by decide) (by decide)
  exact absurd h2.1 (by decide)

/-- C2 (amended): render_gbuffers renders exactly two hardcoded passes — the
program stored under "gbuffers_terrain" and then the one stored under
"gbuffers_water", in that fixed order, consulting no pass_index and no other
gbuffer-stage pass — and each pass processes the geometry bucket fetched
under the program's NAME, not its filter; the only program binds in the step
are those two, in that order. -/
theorem render_gbuffers_fixed_passes (native : String → Int) (tm : List String)
    (meshes : String → List render_object) (sp : shaderpack)
    (tr : List GLEvent) (sp2 : shaderpack)
    (h : render_gbuffers native tm meshes sp = Except.ok (tr, sp2)) :
    ∃ t w rt rw,
      sp.get_shader "gbuffers_terrain" = Except.ok t ∧
      sp.get_shader "gbuffers_water" = Except.ok w ∧
      process_all native tm t (meshes t.name) = Except.ok rt ∧
      process_all native tm w (meshes w.name) = Except.ok rw ∧
      tr = GLEvent.logMessage "Rendering gbuffer pass" ::
        (GLEvent.logMessage ("Rendering everything for shader " ++ t.name) ::
         GLEvent.bindProgram t.name :: rt.1) ++
        (GLEvent.logMessage ("Rendering everything for shader " ++ w.name) ::
         GLEvent.bindProgram w.name :: rw.1) ∧
      program_binds tr = [t.name, w.name] := by
  unfold render_gbuffers at h
  cases ht : sp.get_shader "gbuffers_terrain" with
  | error e => rw [ht] at h; simp [Except.bind] at h
  | ok t =>
      rw [ht] at h
      simp only [Except.bind] at h
      cases hrt : render_shader native tm meshes t with
      | error e => rw [hrt] at h; simp [Except.bind] at h
      | ok r1 =>
          rw [hrt] at h
          simp only [Except.bind] at h
          rw [get_shader_update_ne sp "gbuffers_terrain" "gbuffers_water" r1.2
            (by decide)] at h
          cases hw : sp.get_shader "gbuffers_water" with
          | error e => rw [hw] at h; simp [Except.bind] at h
          | ok w =>
              rw [hw] at h
              simp only [Except.bind] at h
              cases hrw : render_shader native tm meshes w with
              | error e => rw [hrw] at h; simp [Except.bind] at h
              | ok r2 =>
                  rw [hrw] at h
                  simp only [Except.bind, Except.ok.injEq, Prod.mk.injEq] at h
                  obtain ⟨htr, hsp2⟩ := h
                  obtain ⟨rt, hprt, hr1, hr1s⟩ :=
                    render_shader_trace native tm meshes t r1 hrt
                  obtain ⟨rw2, hprw, hr2, hr2s⟩ :=
                    render_shader_trace native tm meshes w r2 hrw
                  refine ⟨t, w, rt, rw2, rfl, rfl, hprt, hprw, ?_, ?_⟩
                  · rw [← htr, hr1, hr2]
                  · rw [← htr, hr1, hr2]
                    have hbt : program_binds rt.1 = [] :=
                      process_all_program_binds native tm t (meshes t.name) rt hprt
                    have hbw : program_binds rw2.1 = [] :=
                      process_all_program_binds native tm w (meshes w.name) rw2 hprw
                    simp only [program_binds] at hbt hbw ⊢
                    simp [List.filterMap_append, hbt, hbw]

/-- C2 amended-claim witness: the sample pack run discharges the success
hypothesis; the trace binds exactly the terrain and water programs in that
order. -/
theorem render_gbuffers_fixed_passes_witness :
    render_gbuffers sample_native [] sample_meshes sample_pack =
      Except.ok (sample_gbuffers_trace, sample_pack) ∧
    ∃ t w rt rw,
      sample_pack.get_shader "gbuffers_terrain" = Except.ok t ∧
      sample_pack.get_shader "gbuffers_water" = Except.ok w ∧
      process_all sample_native [] t (sample_meshes t.name) = Except.ok rt ∧
      process_all sample_native [] w (sample_meshes w.name) = Except.ok rw ∧
      sample_gbuffers_trace = GLEvent.logMessage "Rendering gbuffer pass" ::
        (GLEvent.logMessage ("Rendering everything for shader " ++ t.name) ::
         GLEvent.bindProgram t.name :: rt.1) ++
        (GLEvent.logMessage ("Rendering everything for shader " ++ w.name) ::
         GLEvent.bindProgram w.name :: rw.1) ∧
      program_binds sample_gbuffers_trace = [t.name, w.name] := by
  have hrun : render_gbuffers sample_native [] sample_meshes sample_pack =
      Except.ok (sample_gbuffers_trace, sample_pack) := by rfl
  exact ⟨hrun, render_gbuffers_fixed_passes sample_native [] sample_meshes
    sample_pack sample_gbuffers_trace sample_pack hrun⟩

/-! ### Claim C5 -/

/-- C5: a renderable whose geometry has no uploaded data is skipped without
error — it contributes only a trace log — and every renderable after it is
processed from exactly the same shader state as if the skipped one were not
there, so the draw order and texture bindings of the rest of the pass are
unchanged. -/
theorem skip_preserves_rest (native : String → Int) (tm : List String)
    (shader : gl_shader_program) (xs ys : List render_object)
    (g : render_object) (h : g.geometry_has_data = false) :
    process_all native tm shader (xs ++ g :: ys) =
      (process_all native tm shader xs).bind fun r1 =>
      (process_all native tm r1.2 ys).bind fun r2 =>
      Except.ok (r1.1 ++
        GLEvent.logMessage "Skipping some geometry since it has no data" ::
        r2.1, r2.2) := by
  rw [process_all_append]
  cases hxs : process_all native tm shader xs with
  | error e => simp [Except.bind]
  | ok r1 =>
      simp only [Except.bind]
      have hg : process_renderable native tm r1.2 g =
          Except.ok ([GLEvent.logMessage "Skipping some geometry since it has no data"], r1.2) := by
        unfold process_renderable
        rw [if_neg (by simp [h])]
      have hstep : process_all native tm r1.2 (g :: ys) =
          (process_renderable native tm r1.2 g).bind fun ra =>
          (process_all native tm ra.2 ys).bind fun rb =>
          Except.ok (ra.1 ++ rb.1, rb.2) := rfl
      rw [hstep, hg]
      simp only [Except.bind]
      cases hys : process_all native tm r1.2 ys with
      | error e => simp [Except.bind]
      | ok r2 => simp [Except.bind]

/-- C5 witness: with a no-data renderable between two textured ones, the pass
produces the surrounding events around a single skip log. -/
theorem skip_preserves_rest_witness :
    gui_geom.geometry_has_data = false ∧
    process_all sample_native lightmap_tm terrain_program
        ([sample_geom] ++ gui_geom :: [sample_geom]) =
      ((process_all sample_native lightmap_tm terrain_program [sample_geom]).bind fun r1 =>
       (process_all sample_native lightmap_tm r1.2 [sample_geom]).bind fun r2 =>
       Except.ok (r1.1 ++
         GLEvent.logMessage "Skipping some geometry since it has no data" ::
         r2.1, r2.2)) :=
  ⟨rfl, skip_preserves_rest sample_native lightmap_tm terrain_program
    [sample_geom] [sample_geom] gui_geom rfl⟩

/-! ### Claim C6 -/

/-- The full trace of one drawn renderable when every texture it references
is available: optional binds at units 0/1/2, the lightmap at unit 3, the
model-matrix upload, then the draw. -/
theorem process_renderable_trace (native : String → Int) (tm : List String)
    (shader : gl_shader_program) (geom : render_object)
    (hdata : geom.geometry_has_data = true)
    (hcolor : geom.color_texture ≠ "" → geom.color_texture ∈ tm)
    (hnormal : ∀ nm, geom.normalmap = some nm → nm ∈ tm)
    (hdt : ∀ dt, geom.data_texture = some dt → dt ∈ tm)
    (hlm : "lightmap" ∈ tm) :
    process_renderable native tm shader geom = Except.ok (
      (if geom.color_texture = "" then []
       else [GLEvent.bindTexture geom.color_texture 0]) ++
      (match geom.normalmap with
       | none => []
       | some nm => [GLEvent.bindTexture nm 1]) ++
      (match geom.data_texture with
       | none => []
       | some dt => [GLEvent.bindTexture dt 2]) ++
      [GLEvent.bindTexture "lightmap" 3,
       GLEvent.uploadMat4 (shader.get_uniform_location native "gbufferModel").1
         (Mat4.translate3 Mat4.identity geom.position.1 geom.position.2.1
           geom.position.2.2),
       GLEvent.setActive geom.geometry_id, GLEvent.draw geom.geometry_id],
      (shader.get_uniform_location native "gbufferModel").2.1) := by
  have hc : bind_color_texture tm geom.color_texture =
      Except.ok (if geom.color_texture = "" then []
        else [GLEvent.bindTexture geom.color_texture 0]) := by
    unfold bind_color_texture
    by_cases hce : geom.color_texture = ""
    · rw [if_pos hce, if_pos hce]
    · rw [if_neg hce, if_neg hce]
      unfold get_texture
      rw [if_pos (hcolor hce)]
      rfl
  have hn : bind_optional_texture tm geom.normalmap 1 =
      Except.ok (match geom.normalmap with
        | none => []
        | some nm => [GLEvent.bindTexture nm 1]) := by
    cases hnm : geom.normalmap with
    | none => rfl
    | some nm =>
        simp only [bind_optional_texture]
        unfold get_texture
        rw [if_pos (hnormal nm hnm)]
        rfl
  have hd2 : bind_optional_texture tm geom.data_texture 2 =
      Except.ok (match geom.data_texture with
        | none => []
        | some dt => [GLEvent.bindTexture dt 2]) := by
    cases hdtm : geom.data_texture with
    | none => rfl
    | some dt =>
        simp only [bind_optional_texture]
        unfold get_texture
        rw [if_pos (hdt dt hdtm)]
        rfl
  unfold process_renderable
  rw [if_pos hdata, hc, hn, hd2]
  simp only [Except.bind]
  unfold get_texture
  rw [if_pos hlm]
  simp only [Except.bind]
  simp [upload_model_matrix, List.append_assoc]

/-- When the mandatory lightmap is missing (and the renderable's own textures
are available), processing a drawn renderable fails with the texture
manager's error. -/
theorem process_renderable_missing_lightmap (native : String → Int)
    (tm : List String) (shader : gl_shader_program) (geom : render_object)
    (hdata : geom.geometry_has_data = true)
    (hcolor : geom.color_texture ≠ "" → geom.color_texture ∈ tm)
    (hnormal : ∀ nm, geom.normalmap = some nm → nm ∈ tm)
    (hdt : ∀ dt, geom.data_texture = some dt → dt ∈ tm)
    (hlm : "lightmap" ∉ tm) :
    process_renderable native tm shader geom =
      Except.error ("No texture named " ++ "lightmap") := by
  have hc : bind_color_texture tm geom.color_texture =
      Except.ok (if geom.color_texture = "" then []
        else [GLEvent.bindTexture geom.color_texture 0]) := by
    unfold bind_color_texture
    by_cases hce : geom.color_texture = ""
    · rw [if_pos hce, if_pos hce]
    · rw [if_neg hce, if_neg hce]
      unfold get_texture
      rw [if_pos (hcolor hce)]
      rfl
  have hn : bind_optional_texture tm geom.normalmap 1 =
      Except.ok (match geom.normalmap with
        | none => []
        | some nm => [GLEvent.bindTexture nm 1]) := by
    cases hnm : geom.normalmap with
    | none => rfl
    | some nm =>
        simp only [bind_optional_texture]
        unfold get_texture
        rw [if_pos (hnormal nm hnm)]
        rfl
  have hd2 : bind_optional_texture tm geom.data_texture 2 =
      Except.ok (match geom.data_texture with
        | none => []
        | some dt => [GLEvent.bindTexture dt 2]) := by
    cases hdtm : geom.data_texture with
    | none => rfl
    | some dt =>
        simp only [bind_optional_texture]
        unfold get_texture
        rw [if_pos (hdt dt hdtm)]
        rfl
  unfold process_renderable
  rw [if_pos hdata, hc, hn, hd2]
  simp only [Except.bind]
  unfold get_texture
  rw [if_neg hlm]

/-- C6: a drawn renderable's color, normal and data textures are bound at
fixed units 0, 1 and 2 — each optional one bound only when present and its
absence causing no failure — the fixed "lightmap" texture is bound at unit 3
for every drawn renderable, the per-object model matrix is uploaded before
the draw call is issued, and a missing lightmap fails the pass loudly. -/
theorem drawn_renderable_bindings (native : String → Int) (tm : List String)
    (shader : gl_shader_program) (geom : render_object)
    (hdata : geom.geometry_has_data = true)
    (hcolor : geom.color_texture ≠ "" → geom.color_texture ∈ tm)
    (hnormal : ∀ nm, geom.normalmap = some nm → nm ∈ tm)
    (hdt : ∀ dt, geom.data_texture = some dt → dt ∈ tm) :
    ("lightmap" ∈ tm →
      process_renderable native tm shader geom = Except.ok (
        (if geom.color_texture = "" then []
         else [GLEvent.bindTexture geom.color_texture 0]) ++
        (match geom.normalmap with
         | none => []
         | some nm => [GLEvent.bindTexture nm 1]) ++
        (match geom.data_texture with
         | none => []
         | some dt => [GLEvent.bindTexture dt 2]) ++
        [GLEvent.bindTexture "lightmap" 3,
         GLEvent.uploadMat4 (shader.get_uniform_location native "gbufferModel").1
           (Mat4.translate3 Mat4.identity geom.position.1 geom.position.2.1
             geom.position.2.2),
         GLEvent.setActive geom.geometry_id, GLEvent.draw geom.geometry_id],
        (shader.get_uniform_location native "gbufferModel").2.1)) ∧
    ("lightmap" ∉ tm →
      process_renderable native tm shader geom =
        Except.error ("No texture named " ++ "lightmap")) :=
  ⟨fun hlm => process_renderable_trace native tm shader geom hdata hcolor
      hnormal hdt hlm,
   fun hlm => process_renderable_missing_lightmap native tm shader geom hdata
      hcolor hnormal hdt hlm⟩

/-- C6 witness: the fully textured renderable against the full texture
manager binds units 0-3 and uploads the matrix before drawing; against the
manager missing the lightmap the same renderable fails loudly. -/
theorem drawn_renderable_bindings_witness :
    textured_geom.geometry_has_data = true ∧
    ("lightmap" ∈ lightmap_tm →
      process_renderable sample_native lightmap_tm terrain_program textured_geom =
        Except.ok (
          (if textured_geom.color_texture = "" then []
           else [GLEvent.bindTexture textured_geom.color_texture 0]) ++
          (match textured_geom.normalmap with
           | none => []
           | some nm => [GLEvent.bindTexture nm 1]) ++
          (match textured_geom.data_texture with
           | none => []
           | some dt => [GLEvent.bindTexture dt 2]) ++
          [GLEvent.bindTexture "lightmap" 3,
           GLEvent.uploadMat4
             (terrain_program.get_uniform_location sample_native "gbufferModel").1
             (Mat4.translate3 Mat4.identity textured_geom.position.1
               textured_geom.position.2.1 textured_geom.position.2.2),
           GLEvent.setActive textured_geom.geometry_id,
           GLEvent.draw textured_geom.geometry_id],
          (terrain_program.get_uniform_location sample_native "gbufferModel").2.1)) ∧
    ("lightmap" ∉ no_lightmap_tm ∧
      process_renderable sample_native no_lightmap_tm terrain_program textured_geom =
        Except.error ("No texture named " ++ "lightmap")) := by
  refine ⟨rfl, ?_, ?_, ?_⟩
  · exact (drawn_renderable_bindings sample_native lightmap_tm terrain_program
      textured_geom rfl (fun _ => by decide)
      (fun nm hnm => by
        have h2 := Option.some.inj hnm
        subst h2
        decide)
      (fun dt hdt2 => by
        have h2 := Option.some.inj hdt2
        subst h2
        decide)).1
  · decide
  · exact (drawn_renderable_bindings sample_native no_lightmap_tm terrain_program
      textured_geom rfl (fun _ => by decide)
      (fun nm hnm => by
        have h2 := Option.some.inj hnm
        subst h2
        decide)
      (fun dt hdt2 => by
        have h2 := Option.some.inj hdt2
        subst h2
        decide)).2 (by decide)

/-! ### Claim C7 -/

/-- Reduction of render_frame when no pack is loaded. -/
theorem render_frame_none (st : nova_renderer_state)
    (h : st.loaded_shaderpack = none) :
    render_frame st = Except.error "no shaderpack loaded" := by
  unfold render_frame
  rw [h]

/-- Reduction of render_frame to the pass sequence when a pack is loaded. -/
theorem render_frame_some (st : nova_renderer_state) (sp : shaderpack)
    (h : st.loaded_shaderpack = some sp) :
    render_frame st =
      (render_gbuffers st.native_uniform_location st.texture_names st.meshes
        sp).bind fun rg =>
      (render_gui st.native_uniform_location st.texture_names st.meshes
        st.render_settings rg.2).bind fun ru =>
      Except.ok (GLEvent.recalculateFrustum :: GLEvent.uploadNewGeometry ::
        render_shadow_pass ++ GLEvent.clearBuffers true true ::
        update_gbuffer_ubos st ++ rg.1 ++ render_composite_passes ++
        render_final_pass ++ ru.1 ++ [GLEvent.endFrame],
        { st with loaded_shaderpack := some ru.2 }) := by
  unfold render_frame
  rw [h]

/-- C7: whenever render_frame completes, its trace is exactly the fixed
per-frame sequence in order with nothing skipped or reordered: recalculate
the frustum, upload new geometry, shadow pass, clear the main color and depth
targets, send the camera projection and view matrices to the per-frame
uniforms, the gbuffer passes, the composite passes, the final pass, the GUI
pass, and the end-of-frame present. -/
theorem render_frame_sequence (st : nova_renderer_state) (tr : List GLEvent)
    (st2 : nova_renderer_state) (h : render_frame st = Except.ok (tr, st2)) :
    ∃ sp evGb sp1 evGui sp2,
      st.loaded_shaderpack = some sp ∧
      render_gbuffers st.native_uniform_location st.texture_names st.meshes sp =
        Except.ok (evGb, sp1) ∧
      render_gui st.native_uniform_location st.texture_names st.meshes
        st.render_settings sp1 = Except.ok (evGui, sp2) ∧
      tr = GLEvent.recalculateFrustum :: GLEvent.uploadNewGeometry ::
        GLEvent.logMessage "Rendering shadow pass" ::
        GLEvent.clearBuffers true true ::
        GLEvent.sendPerFrameData st.camera_projection st.camera_view ::
        evGb ++ GLEvent.logMessage "Rendering composite passes" ::
        GLEvent.logMessage "Rendering final pass" ::
        evGui ++ [GLEvent.endFrame] ∧
      st2 = { st with loaded_shaderpack := some sp2 } := by
  cases hsp : st.loaded_shaderpack with
  | none => rw [render_frame_none st hsp] at h; simp at h
  | some sp =>
      rw [render_frame_some st sp hsp] at h
      cases hgb : render_gbuffers st.native_uniform_location st.texture_names
          st.meshes sp with
      | error e => rw [hgb] at h; simp [Except.bind] at h
      | ok rg =>
          rw [hgb] at h
          simp only [Except.bind] at h
          cases hgui : render_gui st.native_uniform_location st.texture_names
              st.meshes st.render_settings rg.2 with
          | error e => rw [hgui] at h; simp [Except.bind] at h
          | ok ru =>
              rw [hgui] at h
              simp only [Except.bind, Except.ok.injEq, Prod.mk.injEq] at h
              obtain ⟨htr, hst⟩ := h
              refine ⟨sp, rg.1, rg.2, ru.1, ru.2, rfl, hgb, hgui, ?_, hst.symm⟩
              rw [← htr]
              simp [render_shadow_pass, render_composite_passes,
                render_final_pass, update_gbuffer_ubos]

/-- C7 witness: one frame on the sample state produces exactly the fixed
sequence. -/
theorem render_frame_sequence_witness :
    render_frame sample_state = Except.ok (sample_frame_trace, sample_state_after) ∧
    ∃ sp evGb sp1 evGui sp2,
      sample_state.loaded_shaderpack = some sp ∧
      render_gbuffers sample_state.native_uniform_location
        sample_state.texture_names sample_state.meshes sp =
        Except.ok (evGb, sp1) ∧
      render_gui sample_state.native_uniform_location sample_state.texture_names
        sample_state.meshes sample_state.render_settings sp1 =
        Except.ok (evGui, sp2) ∧
      sample_frame_trace = GLEvent.recalculateFrustum :: GLEvent.uploadNewGeometry ::
        GLEvent.logMessage "Rendering shadow pass" ::
        GLEvent.clearBuffers true true ::
        GLEvent.sendPerFrameData sample_state.camera_projection
          sample_state.camera_view ::
        evGb ++ GLEvent.logMessage "Rendering composite passes" ::
        GLEvent.logMessage "Rendering final pass" ::
        evGui ++ [GLEvent.endFrame] ∧
      sample_state_after = { sample_state with loaded_shaderpack := some sp2 } := by
  have hrun : render_frame sample_state =
      Except.ok (sample_frame_trace, sample_state_after) := by rfl
  exact ⟨hrun, render_frame_sequence sample_state sample_frame_trace
    sample_state_after hrun⟩

/-! ### Claim C8 -/

/-- C8: the GUI pass clears only the depth buffer — the color flag of its
clear is false, so colors from earlier passes survive — binds the program
stored under "gui", uploads the orthographic viewport matrix computed from
the configured view width, view height and scale factor, and then draws every
renderable of the "gui" bucket. -/
theorem render_gui_pass (native : String → Int) (tm : List String)
    (meshes : String → List render_object) (cfg : render_config)
    (sp : shaderpack) (g : gl_shader_program) (evs : List GLEvent)
    (hg : sp.get_shader "gui" = Except.ok g)
    (hevs : render_gui_geoms tm (meshes "gui") = Except.ok evs) :
    render_gui native tm meshes cfg sp = Except.ok (
      GLEvent.logMessage "Rendering GUI" :: GLEvent.clearBuffers false true ::
      GLEvent.bindProgram g.name ::
      GLEvent.uploadMat4 (g.get_uniform_location native "gbufferModel").1
        (gui_model_matrix cfg.viewWidth cfg.viewHeight cfg.scalefactor) :: evs,
      sp.update_shader "gui"
        (g.get_uniform_location native "gbufferModel").2.1) ∧
    ∀ geom ∈ meshes "gui", GLEvent.draw geom.geometry_id ∈ evs := by
  constructor
  · unfold render_gui
    rw [hg]
    simp only [Except.bind]
    rw [hevs]
    simp only [Except.bind]
    simp [upload_gui_model_matrix]
  · exact render_gui_geoms_draws tm (meshes "gui") evs hevs

/-- C8 witness: the sample pack's gui program over a one-renderable gui
bucket clears depth only, binds "gui", uploads the viewport matrix for the
sample settings, and draws the renderable. -/
theorem render_gui_pass_witness :
    sample_pack.get_shader "gui" = Except.ok gui_program ∧
    render_gui_geoms lightmap_tm (gui_meshes "gui") =
      Except.ok [GLEvent.bindTexture "tex_color" 0,
        GLEvent.setActive gui_geom.geometry_id,
        GLEvent.draw gui_geom.geometry_id] ∧
    (render_gui sample_native lightmap_tm gui_meshes sample_config sample_pack =
      Except.ok (
        GLEvent.logMessage "Rendering GUI" :: GLEvent.clearBuffers false true ::
        GLEvent.bindProgram gui_program.name ::
        GLEvent.uploadMat4
          (gui_program.get_uniform_location sample_native "gbufferModel").1
          (gui_model_matrix sample_config.viewWidth sample_config.viewHeight
            sample_config.scalefactor) ::
        [GLEvent.bindTexture "tex_color" 0,
         GLEvent.setActive gui_geom.geometry_id,
         GLEvent.draw gui_geom.geometry_id],
        sample_pack.update_shader "gui"
          (gui_program.get_uniform_location sample_native "gbufferModel").2.1) ∧
     ∀ geom ∈ gui_meshes "gui", GLEvent.draw geom.geometry_id ∈
       [GLEvent.bindTexture "tex_color" 0,
        GLEvent.setActive gui_geom.geometry_id,
        GLEvent.draw gui_geom.geometry_id]) :=
  ⟨rfl, rfl,
   render_gui_pass sample_native lightmap_tm gui_meshes sample_config
     sample_pack gui_program _ rfl rfl⟩

/-! ### Claim C9 -/

/-- The conditional color bind succeeds whenever a nonempty color-texture
name is available in the texture manager; an empty name yields no events. -/
theorem bind_color_texture_ok (tm : List String) (c : String)
    (hcolor : c ≠ "" → c ∈ tm) :
    bind_color_texture tm c =
      Except.ok (if c = "" then [] else [GLEvent.bindTexture c 0]) := by
  unfold bind_color_texture
  by_cases hce : c = ""
  · rw [if_pos hce, if_pos hce]
  · rw [if_neg hce, if_neg hce]
    unfold get_texture
    rw [if_pos (hcolor hce)]
    rfl

/-- C9: the gui loop draws its renderable unconditionally — no has_data
check — binding at most the color texture at unit 0, never a lightmap and
never a per-object matrix; the no-uploaded-data skip applies only to the
gbuffer-style render_shader path. -/
theorem gui_draws_unconditionally (native : String → Int) (tm : List String)
    (shader : gl_shader_program) (geom : render_object)
    (hcolor : geom.color_texture ≠ "" → geom.color_texture ∈ tm) :
    (∃ ev, render_gui_geom tm geom = Except.ok ev ∧
       GLEvent.draw geom.geometry_id ∈ ev ∧
       (∀ t u, GLEvent.bindTexture t u ∈ ev → u = 0) ∧
       (∀ loc m, GLEvent.uploadMat4 loc m ∉ ev)) ∧
    (geom.geometry_has_data = false →
       process_renderable native tm shader geom =
         Except.ok ([GLEvent.logMessage "Skipping some geometry since it has no data"],
           shader)) := by
  constructor
  · refine ⟨(if geom.color_texture = "" then []
        else [GLEvent.bindTexture geom.color_texture 0]) ++
      [GLEvent.setActive geom.geometry_id, GLEvent.draw geom.geometry_id],
      ?_, ?_, ?_, ?_⟩
    · unfold render_gui_geom
      rw [bind_color_texture_ok tm geom.color_texture hcolor]
      simp only [Except.bind]
    · by_cases hce : geom.color_texture = "" <;> simp [hce]
    · intro t u hmem
      by_cases hce : geom.color_texture = ""
      · rw [if_pos hce] at hmem
        simp at hmem
      · rw [if_neg hce] at hmem
        simp at hmem
        exact hmem.2
    · intro loc m hmem
      by_cases hce : geom.color_texture = ""
      · rw [if_pos hce] at hmem
        simp at hmem
      · rw [if_neg hce] at hmem
        simp at hmem
  · intro hfalse
    unfold process_renderable
    rw [if_neg (by simp [hfalse])]

/-- C9 witness: the no-data gui renderable is drawn by the gui loop yet
skipped by the gbuffer-style loop. -/
theorem gui_draws_unconditionally_witness :
    gui_geom.geometry_has_data = false ∧
    ((∃ ev, render_gui_geom lightmap_tm gui_geom = Except.ok ev ∧
        GLEvent.draw gui_geom.geometry_id ∈ ev ∧
        (∀ t u, GLEvent.bindTexture t u ∈ ev → u = 0) ∧
        (∀ loc m, GLEvent.uploadMat4 loc m ∉ ev)) ∧
     (gui_geom.geometry_has_data = false →
        process_renderable sample_native lightmap_tm gui_program gui_geom =
          Except.ok ([GLEvent.logMessage "Skipping some geometry since it has no data"],
            gui_program))) :=
  ⟨rfl, gui_draws_unconditionally sample_native lightmap_tm gui_program
    gui_geom (by decide)⟩

/-! ### Claim C10 -/

/-- A successful optional-texture bind when the named texture (if any) is
available. -/
theorem bind_optional_texture_ok (tm : List String) (o : Option String)
    (u : Nat) (hmem : ∀ nm, o = some nm → nm ∈ tm) :
    bind_optional_texture tm o u = Except.ok (optional_bind_events o u) := by
  cases ho : o with
  | none => rfl
  | some nm =>
      simp only [bind_optional_texture, optional_bind_events]
      unfold get_texture
      rw [if_pos (hmem nm ho)]
      rfl

/-- C10: a renderable whose color-texture name is empty is still drawn in
both the gbuffer-style path and the gui path: only the unit-0 texture lookup
and bind are skipped, no error is raised, and the rest of the per-renderable
sequence is unchanged. -/
theorem empty_color_texture_still_draws (native : String → Int)
    (tm : List String) (shader : gl_shader_program) (geom : render_object)
    (hcolor : geom.color_texture = "")
    (hdata : geom.geometry_has_data = true)
    (hnormal : ∀ nm, geom.normalmap = some nm → nm ∈ tm)
    (hdt : ∀ dt, geom.data_texture = some dt → dt ∈ tm)
    (hlm : "lightmap" ∈ tm) :
    (∃ ev s1, process_renderable native tm shader geom = Except.ok (ev, s1) ∧
       GLEvent.draw geom.geometry_id ∈ ev ∧
       (∀ t, GLEvent.bindTexture t 0 ∉ ev)) ∧
    render_gui_geom tm geom =
      Except.ok [GLEvent.setActive geom.geometry_id,
        GLEvent.draw geom.geometry_id] := by
  have hc0 : bind_color_texture tm geom.color_texture = Except.ok [] := by
    unfold bind_color_texture
    rw [if_pos hcolor]
  constructor
  · have hrun : process_renderable native tm shader geom = Except.ok (
        optional_bind_events geom.normalmap 1 ++
        optional_bind_events geom.data_texture 2 ++
        [GLEvent.bindTexture "lightmap" 3,
         GLEvent.uploadMat4 (shader.get_uniform_location native "gbufferModel").1
           (Mat4.translate3 Mat4.identity geom.position.1 geom.position.2.1
             geom.position.2.2),
         GLEvent.setActive geom.geometry_id, GLEvent.draw geom.geometry_id],
        (shader.get_uniform_location native "gbufferModel").2.1) := by
      unfold process_renderable
      rw [if_pos hdata, hc0,
        bind_optional_texture_ok tm geom.normalmap 1 hnormal,
        bind_optional_texture_ok tm geom.data_texture 2 hdt]
      simp only [Except.bind]
      unfold get_texture
      rw [if_pos hlm]
      simp only [Except.bind]
      simp [upload_model_matrix, List.append_assoc]
    refine ⟨_, _, hrun, ?_, ?_⟩
    · cases geom.normalmap <;> cases geom.data_texture <;>
        simp [optional_bind_events]
    · intro t hmem
      cases hn2 : geom.normalmap <;> cases hd3 : geom.data_texture <;>
        simp [hn2, hd3, optional_bind_events] at hmem
  · unfold render_gui_geom
    rw [hc0]
    simp only [Except.bind]
    simp

/-- C10 witness: the untextured sample renderable (empty color-texture name)
is drawn with no unit-0 bind in the gbuffer path and is drawn by the gui
loop. -/
theorem empty_color_texture_still_draws_witness :
    sample_geom.color_texture = "" ∧
    ((∃ ev s1, process_renderable sample_native lightmap_tm terrain_program
          sample_geom = Except.ok (ev, s1) ∧
        GLEvent.draw sample_geom.geometry_id ∈ ev ∧
        (∀ t, GLEvent.bindTexture t 0 ∉ ev)) ∧
     render_gui_geom lightmap_tm sample_geom =
       Except.ok [GLEvent.setActive sample_geom.geometry_id,
         GLEvent.draw sample_geom.geometry_id]) :=
  ⟨rfl, empty_color_texture_still_draws sample_native lightmap_tm
    terrain_program sample_geom rfl rfl
    (fun nm hnm => by simp [sample_geom] at hnm)
    (fun dt hdt2 => by simp [sample_geom] at hdt2)
    (by decide)⟩

end Nova
